import Mathlib

/-!
Verification of the LaTeX-rendering cog (`bot/exts/fun/latex/_latex_cog.py`).

The development shallowly embeds the module: the code-fence stripping regex
`FORMATTED_CODE_REGEX` as applied by `_prepare_input` becomes an explicit
backtracking matcher on `List Char`; `hashlib.md5(...).hexdigest()` becomes a
full MD5 implementation over `Nat`; the coroutine bodies of
`Latex._generate_image`, `Latex._upload_to_pastebin` and the `latex` command
become pure functions from an environment (the responses of the two external
HTTP services) and a filesystem state (the `cache/` directory as an
association list) to an outcome recording the final filesystem, the ordered
list of observable events, and whether an exception escaped the invocation.
-/

namespace LatexCog

/-! ## Code-fence matcher

`FORMATTED_CODE_REGEX` is
`(?P<delim>(?P<block>```)|``?)(?(block)(?:(?P<lang>[a-z]+)\n)?)(?:[ \t]*\n)*(?P<code>.*?)\s*(?P=delim)`
compiled with `re.DOTALL | re.IGNORECASE`, used via `.match` (anchored at the
start of the input, the end left free).  The embedding below realises Python's
backtracking search for this particular pattern: the delimiter alternation
tries ``` then `` then `; the conditional language group and the blank-line
star are greedy (and deterministic for this pattern, since shrinking them
never turns an overall failure into a success); the code group is lazy and the
trailing `\s*` before the closing delimiter is an existential whitespace skip.
-/

/-- Python's `\s` for `str` patterns: every character CPython's `re`
matches with `\s` — TAB through CR, the separators U+001C–U+001F, space,
NEL, NBSP, Ogham space mark, the U+2000–U+200A spaces, line and paragraph
separators, narrow no-break space, medium mathematical space and ideographic
space (the set was enumerated over all codepoints against CPython). -/
def isWs (c : Char) : Bool :=
  ('\x09' ≤ c && c ≤ '\x0d') || c = ' ' ||
  ('\x1c' ≤ c && c ≤ '\x1f') ||
  c = '\u0085' || c = '\u00a0' || c = '\u1680' ||
  ('\u2000' ≤ c && c ≤ '\u200a') ||
  c = '\u2028' || c = '\u2029' || c = '\u202f' || c = '\u205f' || c = '\u3000'

/-- The characters the class `[a-z]` matches under `re.IGNORECASE` for
`str` patterns: A–Z, a–z, and the four case-folding extras U+0130 (İ),
U+0131 (ı), U+017F (ſ) and U+212A (K) (the set was enumerated over all
codepoints against CPython). -/
def isLetterIC (c : Char) : Bool :=
  ('a' ≤ c && c ≤ 'z') || ('A' ≤ c && c ≤ 'Z') ||
  c = '\u0130' || c = '\u0131' || c = '\u017f' || c = '\u212a'

/-- One iteration of the blank-line group `[ \t]*\n`: consume spaces/tabs and
a terminating newline, or fail. -/
def blankLine : List Char → Option (List Char)
  | [] => none
  | c :: rest =>
    if c = '\n' then some rest
    else if c = ' ' || c = '\t' then blankLine rest
    else none

/-- Fuelled iteration of `(?:[ \t]*\n)*` (greedy). -/
def dropBlankLinesF : Nat → List Char → List Char
  | 0, s => s
  | n + 1, s =>
    match blankLine s with
    | some rest => dropBlankLinesF n rest
    | none => s

/-- Greedily consume `(?:[ \t]*\n)*`. -/
def dropBlankLines (s : List Char) : List Char :=
  dropBlankLinesF s.length s

/-- The language group `[a-z]+\n` (greedy, deterministic because a letter run
cannot contain the terminating newline): `some rest` when it matches. -/
def dropLangCore : List Char → Option (List Char)
  | c :: '\n' :: rest => if isLetterIC c then some rest else none
  | c :: rest => if isLetterIC c then dropLangCore rest else none
  | [] => none

/-- The optional conditional group `(?(block)(?:(?P<lang>[a-z]+)\n)?)`,
taken greedily. -/
def dropLang (s : List Char) : List Char :=
  (dropLangCore s).getD s

/-- Literal list prefix test (the fixed delimiter strings against the rest of
the input). -/
def isPre : List Char → List Char → Bool
  | [], _ => true
  | _ :: _, [] => false
  | a :: as, b :: bs => (a == b) && isPre as bs

/-- `\s*(?P=delim)` viewed existentially: the closing delimiter is reachable
from here after skipping some run of whitespace. -/
def tryClose (delim : List Char) : List Char → Bool
  | [] => isPre delim []
  | c :: rest => isPre delim (c :: rest) || (isWs c && tryClose delim rest)

/-- The lazy code group `(?P<code>.*?)` followed by `\s*(?P=delim)`: try to
close with the code read so far (shortest first), otherwise extend the code by
one character.  `acc` holds the code group reversed. -/
def tryCode (delim acc : List Char) : List Char → Option (List Char)
  | [] => none
  | c :: rest =>
    if tryClose delim (c :: rest) then some acc.reverse
    else tryCode delim (c :: acc) rest

/-- One full attempt of the pattern with a fixed delimiter alternative
(`block` is true exactly for the triple-backtick alternative). -/
def tryDelim (block : Bool) (delim : List Char) (s : List Char) : Option (List Char) :=
  if isPre delim s then
    tryCode delim [] (dropBlankLines (if block then dropLang (s.drop delim.length) else s.drop delim.length))
  else none

/-- `FORMATTED_CODE_REGEX.match text`, returning the `code` group: the
delimiter alternation `(```)|``?` tries the block delimiter first, then the
two shorter ones. -/
def fenceMatch (s : List Char) : Option (List Char) :=
  match tryDelim true ['`', '`', '`'] s with
  | some code => some code
  | none =>
    match tryDelim false ['`', '`'] s with
    | some code => some code
    | none => tryDelim false ['`'] s

/-- `_prepare_input` on character lists: the `code` group when the regex
matches at position 0, the input unchanged otherwise. -/
def prepare_core (text : List Char) : List Char :=
  (fenceMatch text).getD text

/-- `_prepare_input(text)`: strip the code-fence markup if present. -/
def prepare_input (text : String) : String :=
  ⟨prepare_core text.data⟩


/-! ## MD5 (`hashlib.md5(query.encode()).hexdigest()`)

A complete MD5 over `Nat` with explicit reduction modulo `2^32`, operating on
byte lists; `utf8Encode` models `str.encode()`. -/

/-- Reduce modulo `2^32`. -/
def w32 (n : Nat) : Nat := n % 4294967296

/-- 32-bit wrapping addition. -/
def wadd (a b : Nat) : Nat := w32 (a + b)

/-- 32-bit bitwise complement. -/
def wnot (a : Nat) : Nat := 4294967295 - w32 a

/-- 32-bit left rotation. -/
def rotl (x s : Nat) : Nat :=
  w32 (w32 x <<< s) ||| (w32 x >>> (32 - s))

/-- The MD5 round function for round index `i` (F, G, H, I by 16-round
groups). -/
def md5F (i b c d : Nat) : Nat :=
  if i < 16 then (b &&& c) ||| (wnot b &&& d)
  else if i < 32 then (b &&& d) ||| (c &&& wnot d)
  else if i < 48 then b ^^^ c ^^^ d
  else c ^^^ (b ||| wnot d)

/-- The MD5 message-word index for round `i`. -/
def md5G (i : Nat) : Nat :=
  if i < 16 then i
  else if i < 32 then (5 * i + 1) % 16
  else if i < 48 then (3 * i + 5) % 16
  else (7 * i) % 16

/-- The 64 MD5 sine-derived constants. -/
def md5K : List Nat :=
  [0xd76aa478, 0xe8c7b756, 0x242070db, 0xc1bdceee,
   0xf57c0faf, 0x4787c62a, 0xa8304613, 0xfd469501,
   0x698098d8, 0x8b44f7af, 0xffff5bb1, 0x895cd7be,
   0x6b901122, 0xfd987193, 0xa679438e, 0x49b40821,
   0xf61e2562, 0xc040b340, 0x265e5a51, 0xe9b6c7aa,
   0xd62f105d, 0x02441453, 0xd8a1e681, 0xe7d3fbc8,
   0x21e1cde6, 0xc33707d6, 0xf4d50d87, 0x455a14ed,
   0xa9e3e905, 0xfcefa3f8, 0x676f02d9, 0x8d2a4c8a,
   0xfffa3942, 0x8771f681, 0x6d9d6122, 0xfde5380c,
   0xa4beea44, 0x4bdecfa9, 0xf6bb4b60, 0xbebfbc70,
   0x289b7ec6, 0xeaa127fa, 0xd4ef3085, 0x04881d05,
   0xd9d4d039, 0xe6db99e5, 0x1fa27cf8, 0xc4ac5665,
   0xf4292244, 0x432aff97, 0xab9423a7, 0xfc93a039,
   0x655b59c3, 0x8f0ccc92, 0xffeff47d, 0x85845dd1,
   0x6fa87e4f, 0xfe2ce6e0, 0xa3014314, 0x4e0811a1,
   0xf7537e82, 0xbd3af235, 0x2ad7d2bb, 0xeb86d391]

/-- The 64 MD5 per-round rotation amounts. -/
def md5S : List Nat :=
  [7, 12, 17, 22, 7, 12, 17, 22, 7, 12, 17, 22, 7, 12, 17, 22,
   5, 9, 14, 20, 5, 9, 14, 20, 5, 9, 14, 20, 5, 9, 14, 20,
   4, 11, 16, 23, 4, 11, 16, 23, 4, 11, 16, 23, 4, 11, 16, 23,
   6, 10, 15, 21, 6, 10, 15, 21, 6, 10, 15, 21, 6, 10, 15, 21]

/-- The four 32-bit MD5 state words. -/
structure MD5State where
  a : Nat
  b : Nat
  c : Nat
  d : Nat
deriving DecidableEq

/-- The MD5 initial state. -/
def md5Init : MD5State :=
  ⟨0x67452301, 0xefcdab89, 0x98badcfe, 0x10325476⟩

/-- One MD5 round on the state, with `m` the sixteen message words of the
current block. -/
def md5Step (m : List Nat) (st : MD5State) (i : Nat) : MD5State :=
  let f := md5F i st.b st.c st.d
  let t := wadd (wadd (wadd st.a f) (md5K.getD i 0)) (m.getD (md5G i) 0)
  ⟨st.d, wadd st.b (rotl t (md5S.getD i 0)), st.b, st.c⟩

/-- Process one 512-bit block: 64 rounds, then add the input state back in. -/
def md5Block (m : List Nat) (st : MD5State) : MD5State :=
  let r := (List.range 64).foldl (md5Step m) st
  ⟨wadd st.a r.a, wadd st.b r.b, wadd st.c r.c, wadd st.d r.d⟩

/-- Four little-endian bytes to one 32-bit word, over a byte list. -/
def bytesToWords : List Nat → List Nat
  | b0 :: b1 :: b2 :: b3 :: rest =>
    (b0 + 256 * b1 + 65536 * b2 + 16777216 * b3) :: bytesToWords rest
  | _ => []

/-- Split into 64-byte chunks (the fuel is an upper bound on the number of
chunks). -/
def chunk64 : Nat → List Nat → List (List Nat)
  | 0, _ => []
  | _, [] => []
  | n + 1, bytes => bytes.take 64 :: chunk64 n (bytes.drop 64)

/-- `count` little-endian bytes of `v`. -/
def leBytes : Nat → Nat → List Nat
  | 0, _ => []
  | n + 1, v => v % 256 :: leBytes n (v / 256)

/-- MD5 padding: a `0x80` byte, zeros to 56 mod 64, then the bit length as
eight little-endian bytes. -/
def md5Pad (msg : List Nat) : List Nat :=
  msg ++ 0x80 :: List.replicate ((119 - msg.length % 64) % 64) 0
    ++ leBytes 8 (8 * msg.length)

/-- Run MD5 over an already padded byte list. -/
def md5Core (bytes : List Nat) : MD5State :=
  (chunk64 bytes.length bytes).foldl (fun st blk => md5Block (bytesToWords blk) st) md5Init

/-- Lower-case hex digit. -/
def hexDigit (n : Nat) : Char :=
  if n < 10 then Char.ofNat (48 + n) else Char.ofNat (87 + n)

/-- Two lower-case hex digits of a byte. -/
def byteHex (b : Nat) : List Char :=
  [hexDigit (b / 16), hexDigit (b % 16)]

/-- `hashlib.md5(bytes).hexdigest()`: the digest state serialised as
little-endian bytes, in lower-case hex. -/
def md5hex (msg : List Nat) : String :=
  let st := md5Core (md5Pad msg)
  ⟨((leBytes 4 st.a ++ leBytes 4 st.b ++ leBytes 4 st.c ++ leBytes 4 st.d).map byteHex).flatten⟩

/-- UTF-8 encoding of one scalar value. -/
def utf8Char (c : Char) : List Nat :=
  let n := c.toNat
  if n < 0x80 then [n]
  else if n < 0x800 then [0xc0 ||| (n >>> 6), 0x80 ||| (n &&& 0x3f)]
  else if n < 0x10000 then
    [0xe0 ||| (n >>> 12), 0x80 ||| ((n >>> 6) &&& 0x3f), 0x80 ||| (n &&& 0x3f)]
  else
    [0xf0 ||| (n >>> 18), 0x80 ||| ((n >>> 12) &&& 0x3f),
     0x80 ||| ((n >>> 6) &&& 0x3f), 0x80 ||| (n &&& 0x3f)]

/-- `str.encode()`: UTF-8 bytes of a string. -/
def utf8Encode (s : String) : List Nat :=
  (s.data.map utf8Char).flatten


/-! ## Module constants and external-world model -/

/-- The rendering API endpoint (`LATEX_API_URL`). -/
def LATEX_API_URL : String := "https://rtex.probablyaweb.site/api/v2"

/-- The paste service base URL (`PASTEBIN_URL`). -/
def PASTEBIN_URL : String := "https://paste.pythondiscord.com"

/-- Modelled from the spec: `template.txt` is read at import time and is not
part of the sources; per §6 it is "a text template with one named
substitution slot (`text`)", so `string.Template(...).substitute(text=query)`
is the query spliced between a fixed prefix and suffix. -/
structure Template where
  pre : String
  post : String
deriving DecidableEq

/-- `TEMPLATE.substitute(text=query)` for the single-slot template. -/
def substitute (t : Template) (query : String) : String :=
  t.pre ++ query ++ t.post

/-- The JSON body the rendering API returns for the submit POST: its
`status`, `log` and `filename` fields. -/
structure RtexResponse where
  status : String
  log : String
  filename : String
deriving DecidableEq

/-- The render API's behaviour for this invocation: HTTP status and JSON of
the submit POST, HTTP status and body bytes of the artifact GET. -/
structure RenderEnv where
  postHttpStatus : Nat
  postJson : RtexResponse
  getHttpStatus : Nat
  getBody : List Nat
deriving DecidableEq

/-- The paste service's behaviour for this invocation: the HTTP status of the
POST and whether/what `key` field its JSON body carries. -/
structure PasteEnv where
  httpStatus : Nat
  hasKey : Bool
  key : String
deriving DecidableEq

/-- The external world for one invocation. -/
structure Ctx where
  render : RenderEnv
  paste : PasteEnv
deriving DecidableEq

/-- Observable actions of one invocation, in program order. -/
inductive Event
  | openWrite (key : String)
  | renderPost (code : String)
  | renderGet (url : String)
  | pasteUpload (text : String)
  | sendEmbed (description : String)
  | sendImage (bytes : Option (List Nat))
  | unlink (key : String)
deriving DecidableEq

/-- The cache directory as an association list from key (hash) to the byte
content of `cache/<key>.png`. -/
def Fs : Type := List (String × List Nat)

/-- File lookup: the bytes at `cache/<key>.png`, if the file exists. -/
def fsGet : Fs → String → Option (List Nat)
  | [], _ => none
  | (k, v) :: rest, q => if k = q then some v else fsGet rest q

/-- Remove `cache/<key>.png`. -/
def fsErase : Fs → String → Fs
  | [], _ => []
  | (k, v) :: rest, q =>
    if k = q then fsErase rest q else (k, v) :: fsErase rest q

/-- Create or overwrite `cache/<key>.png` with `v`. -/
def fsSet (fs : Fs) (q : String) (v : List Nat) : Fs :=
  (q, v) :: fsErase fs q

/-- Result of `Latex._generate_image`: an aiohttp `raise_for_status` error,
an `InvalidLatexError`, or the image bytes written to the open file. -/
inductive GenOutcome
  | transport
  | invalidLatex (logs : String)
  | ok (bytes : List Nat)
deriving DecidableEq

/-- `Latex._generate_image(query, out_file)`: POST `{code: query, format:
"png"}` with `raise_for_status=True`; on HTTP success parse the JSON and
raise `InvalidLatexError(logs=json["log"])` unless `json["status"] ==
"success"`; then GET `<LATEX_API_URL>/<json["filename"]>` with
`raise_for_status=True` and write the body to `out_file`.  Paired with the
network events it performs, in order. -/
def generate_image (env : RenderEnv) (query : String) : GenOutcome × List Event :=
  if 400 ≤ env.postHttpStatus then
    (.transport, [.renderPost query])
  else if env.postJson.status ≠ "success" then
    (.invalidLatex env.postJson.log, [.renderPost query])
  else if 400 ≤ env.getHttpStatus then
    (.transport, [.renderPost query,
      .renderGet (LATEX_API_URL ++ "/" ++ env.postJson.filename)])
  else
    (.ok env.getBody, [.renderPost query,
      .renderGet (LATEX_API_URL ++ "/" ++ env.postJson.filename)])

/-- `Latex._upload_to_pastebin(text)`: POST the text to
`<PASTEBIN_URL>/documents`; inside a `try/except Exception` that swallows
every error, return `<PASTEBIN_URL>/<key>.txt?noredirect` when the response
JSON has a `key` field, `None` otherwise.  Paired with the event of the
attempted upload. -/
def upload_to_pastebin (env : PasteEnv) (text : String) : Option String × List Event :=
  if 400 ≤ env.httpStatus then
    (none, [.pasteUpload text])
  else if env.hasKey then
    (some (PASTEBIN_URL ++ "/" ++ env.key ++ ".txt?noredirect"), [.pasteUpload text])
  else
    (none, [.pasteUpload text])

/-- Final state of one invocation: the cache directory, the ordered events,
and whether an exception escaped the command body. -/
structure Outcome where
  fs : Fs
  events : List Event
  raised : Bool

/-- `hashlib.md5(query.encode()).hexdigest()` for the normalized query of a
raw input. -/
def cache_key (raw : String) : String :=
  md5hex (utf8Encode (prepare_input raw))

/-- The `latex` command body: normalize, hash, check `cache/<hash>.png`; on a
hit send the cached file; on a miss open the cache path for writing, render
`TEMPLATE.substitute(text=query)`, and either let a transport error escape,
or (on `InvalidLatexError`) upload the logs, send the failure embed and
unlink the cache path, or (on success) send the freshly written file. -/
def latex (tmpl : Template) (env : Ctx) (fs : Fs) (raw : String) : Outcome :=
  let query := prepare_input raw
  let key := md5hex (utf8Encode query)
  match fsGet fs key with
  | some _ =>
    { fs := fs, events := [.sendImage (fsGet fs key)], raised := false }
  | none =>
    let fs1 := fsSet fs key []
    match generate_image env.render (substitute tmpl query) with
    | (.transport, ev) =>
      { fs := fs1, events := .openWrite key :: ev, raised := true }
    | (.invalidLatex logs, ev) =>
      let up := upload_to_pastebin env.paste logs
      let description :=
        match up.1 with
        | some url => "[View Logs](" ++ url ++ ")"
        | none => "Couldn't upload logs."
      { fs := fsErase fs1 key,
        events := .openWrite key :: ev ++ up.2 ++ [.sendEmbed description, .unlink key],
        raised := false }
    | (.ok bytes, ev) =>
      let fs2 := fsSet fs1 key bytes
      { fs := fs2, events := .openWrite key :: ev ++ [.sendImage (fsGet fs2 key)],
        raised := false }

/-! ## Spec-side render outcome (for the refinement check of §4.4) -/

/-- The spec's `RenderOutcome` sum type, §3. -/
inductive RenderOutcome
  | Success (imageBytes : List Nat)
  | Failure (logs : String)
  | TransportError
deriving DecidableEq

/-- Written from the spec's words (§4.4 `render(sourceText) -> RenderOutcome`):
non-success HTTP on the POST is a fatal transport error; else a JSON status
field other than `"success"` is `Failure(logs)` with the response's log
field; else non-success HTTP on the artifact GET is a fatal transport error;
else `Success(bytes)` with the raw response body. -/
def render_spec (env : RenderEnv) : RenderOutcome :=
  if ¬ env.postHttpStatus < 400 then .TransportError
  else if env.postJson.status ≠ "success" then .Failure env.postJson.log
  else if ¬ env.getHttpStatus < 400 then .TransportError
  else .Success env.getBody

/-- View of the code-side result as the spec's sum type. -/
def toRenderOutcome : GenOutcome → RenderOutcome
  | .transport => .TransportError
  | .invalidLatex logs => .Failure logs
  | .ok bytes => .Success bytes

/-! ## Event observers -/

/-- Is this event the failure notice (`ctx.send(embed=...)`)? -/
def Event.isEmbedE : Event → Bool
  | .sendEmbed _ => true
  | _ => false

/-- Is this event an image send (`ctx.send(file=...)`)? -/
def Event.isImageE : Event → Bool
  | .sendImage _ => true
  | _ => false

/-- Is this event one of the two render-API network calls? -/
def Event.isRenderCall : Event → Bool
  | .renderPost _ => true
  | .renderGet _ => true
  | _ => false

/-- Is this event the paste-service upload? -/
def Event.isPasteE : Event → Bool
  | .pasteUpload _ => true
  | _ => false

/-- Is this event the cache-file deletion? -/
def Event.isUnlinkE : Event → Bool
  | .unlink _ => true
  | _ => false

/-- Is this event the opening of the cache path for writing? -/
def Event.isOpenE : Event → Bool
  | .openWrite _ => true
  | _ => false

/-- The first event satisfying `p` occurs strictly before the first event
satisfying `q`. -/
def eventsBefore (p q : Event → Bool) (l : List Event) : Bool :=
  match l.findIdx? p, l.findIdx? q with
  | some i, some j => i < j
  | _, _ => false

/-- The description the failure embed carries, as built in the `except
InvalidLatexError` branch: a logs link when the paste upload returned a URL,
the fallback text otherwise. -/
def failDescription (p : PasteEnv) (logs : String) : String :=
  match (upload_to_pastebin p logs).1 with
  | some url => "[View Logs](" ++ url ++ ")"
  | none => "Couldn't upload logs."

/-- A concrete template for concrete runs. -/
def tmplW : Template := ⟨"BEGIN ", " END"⟩

/-- A world where the submit POST succeeds at HTTP level but reports
`status: "error", log: "boom"`, and the paste service accepts the logs. -/
def envLogicalFail : Ctx :=
  ⟨⟨200, ⟨"error", "boom", "out.png"⟩, 200, []⟩, ⟨200, true, "abc123"⟩⟩

/-- A world like `envLogicalFail` but where the paste upload is rejected. -/
def envLogicalFailNoPaste : Ctx :=
  ⟨⟨200, ⟨"error", "boom", "out.png"⟩, 200, []⟩, ⟨400, false, ""⟩⟩

/-- A world where the submit POST itself fails at HTTP level. -/
def envTransportFail : Ctx :=
  ⟨⟨500, ⟨"", "", ""⟩, 200, []⟩, ⟨200, true, "abc123"⟩⟩

/-- A world where everything succeeds and the artifact is the bytes
`[1, 2, 3]`. -/
def envRenderOk : Ctx :=
  ⟨⟨200, ⟨"success", "", "out.png"⟩, 200, [1, 2, 3]⟩, ⟨200, true, "abc123"⟩⟩

/-- The cache paths an invocation touches: the keys of its `openWrite` and
`unlink` events, in order. -/
def keyEvents : List Event → List String
  | [] => []
  | .openWrite k :: rest => k :: keyEvents rest
  | .unlink k :: rest => k :: keyEvents rest
  | _ :: rest => keyEvents rest

/-! ## Theorems -/

/-- Looking a key up after erasing it finds nothing. -/
theorem fsGet_fsErase_self (fs : Fs) (k : String) : fsGet (fsErase fs k) k = none := by
  induction fs with
  | nil => rfl
  | cons hd tl ih =>
    obtain ⟨k', v⟩ := hd
    by_cases h : k' = k <;> simp [fsErase, fsGet, h, ih]

/-- Looking a key up right after setting it finds the new bytes. -/
theorem fsGet_fsSet_self (fs : Fs) (k : String) (v : List Nat) :
    fsGet (fsSet fs k v) k = some v := by
  simp [fsSet, fsGet]

set_option maxRecDepth 100000 in
/-- MD5 test vector: the empty message. -/
theorem md5hex_nil : md5hex (utf8Encode "") = "d41d8cd98f00b204e9800998ecf8427e" := by
  decide

set_option maxRecDepth 100000 in
/-- MD5 test vector: `"abc"`. -/
theorem md5hex_abc : md5hex (utf8Encode "abc") = "900150983cd24fb0d6963f7d28e17f72" := by
  decide

/-- C3: `_prepare_input` reproduces the specified fence-stripping corner
cases: single-backtick fences yield the body, triple-backtick fences yield
the body, a language tag is consumed only after a triple-backtick delimiter,
unfenced text is returned unchanged, and after a single backtick the first
word is never treated as a language tag. -/
theorem claim_C3_fence_stripping :
    prepare_input "`code`" = "code" ∧
    prepare_input "```code```" = "code" ∧
    prepare_input "```python\ncode\n```" = "code" ∧
    prepare_input "plain text" = "plain text" ∧
    prepare_input "`lang\ncode`" = "lang\ncode" := by
  decide

/-- C7: `_upload_to_pastebin` returns the view URL
`<PASTEBIN_URL>/<key>.txt?noredirect` exactly when the HTTP call succeeded
and the response JSON carries a `key` field; in every other case it returns
no URL, and as a total function it never propagates an error (the
`try/except Exception` swallows all failures); the paste POST is attempted
exactly once. -/
theorem claim_C7_paste_url (env : PasteEnv) (text : String) :
    (upload_to_pastebin env text).1 =
      (if env.httpStatus < 400 ∧ env.hasKey = true then
        some (PASTEBIN_URL ++ "/" ++ env.key ++ ".txt?noredirect")
      else none) ∧
    (upload_to_pastebin env text).2 = [Event.pasteUpload text] := by
  unfold upload_to_pastebin
  split_ifs with h1 h2 h3 <;> simp_all
  omega

/-- C6: `_generate_image` refines the spec's `render` contract: a non-success
HTTP status on the submit POST or on the artifact GET is a transport error; a
successful POST whose JSON `status` is not `"success"` is a logical failure
carrying exactly the response's `log` field, raising no transport error; on
full success the artifact is fetched from `<LATEX_API_URL>/<filename>` and
its raw body bytes are the result.  The network events show the GET happens
exactly in the non-transport, non-logical-failure cases. -/
theorem claim_C6_render_taxonomy (env : RenderEnv) (query : String) :
    toRenderOutcome (generate_image env query).1 = render_spec env ∧
    (generate_image env query).2 =
      (if 400 ≤ env.postHttpStatus ∨ env.postJson.status ≠ "success" then
        [Event.renderPost query]
      else
        [Event.renderPost query,
         Event.renderGet (LATEX_API_URL ++ "/" ++ env.postJson.filename)]) := by
  unfold generate_image render_spec toRenderOutcome
  split_ifs with h1 h2 h3 <;> simp_all <;> omega

/-- The paste upload performs exactly one network call whatever the service
does. -/
theorem upload_events (p : PasteEnv) (t : String) :
    (upload_to_pastebin p t).2 = [Event.pasteUpload t] := by
  unfold upload_to_pastebin
  split_ifs <;> rfl

/-- `_generate_image` on a logical render failure. -/
theorem generate_invalid (env : RenderEnv) (q : String)
    (hpost : env.postHttpStatus < 400) (hstatus : env.postJson.status ≠ "success") :
    generate_image env q = (.invalidLatex env.postJson.log, [.renderPost q]) := by
  unfold generate_image
  rw [if_neg (Nat.not_le.mpr hpost), if_pos hstatus]

/-- `_generate_image` when the submit POST fails at HTTP level. -/
theorem generate_transport_post (env : RenderEnv) (q : String)
    (hpost : 400 ≤ env.postHttpStatus) :
    generate_image env q = (.transport, [.renderPost q]) := by
  unfold generate_image
  rw [if_pos hpost]

/-- `_generate_image` when the artifact GET fails at HTTP level. -/
theorem generate_transport_get (env : RenderEnv) (q : String)
    (hpost : env.postHttpStatus < 400) (hstatus : env.postJson.status = "success")
    (hget : 400 ≤ env.getHttpStatus) :
    generate_image env q =
      (.transport, [.renderPost q,
        .renderGet (LATEX_API_URL ++ "/" ++ env.postJson.filename)]) := by
  unfold generate_image
  rw [if_neg (Nat.not_le.mpr hpost), if_neg (not_not_intro hstatus), if_pos hget]

/-- `_generate_image` on full success. -/
theorem generate_ok (env : RenderEnv) (q : String)
    (hpost : env.postHttpStatus < 400) (hstatus : env.postJson.status = "success")
    (hget : env.getHttpStatus < 400) :
    generate_image env q =
      (.ok env.getBody, [.renderPost q,
        .renderGet (LATEX_API_URL ++ "/" ++ env.postJson.filename)]) := by
  unfold generate_image
  rw [if_neg (Nat.not_le.mpr hpost), if_neg (not_not_intro hstatus),
    if_neg (Nat.not_le.mpr hget)]

/-- The `latex` command on a cache hit: only the cached image is sent. -/
theorem latex_hit (tmpl : Template) (env : Ctx) (fs : Fs) (raw : String)
    (b : List Nat) (h : fsGet fs (cache_key raw) = some b) :
    latex tmpl env fs raw = ⟨fs, [Event.sendImage (some b)], false⟩ := by
  unfold cache_key at h
  unfold latex
  simp only [h]

/-- The `latex` command on a cache miss with a logical render failure: the
file is created, the POST made, the logs uploaded, the failure embed sent,
and the cache path unlinked, in that order; no exception escapes. -/
theorem latex_invalid (tmpl : Template) (env : Ctx) (fs : Fs) (raw : String)
    (hmiss : fsGet fs (cache_key raw) = none)
    (hpost : env.render.postHttpStatus < 400)
    (hstatus : env.render.postJson.status ≠ "success") :
    latex tmpl env fs raw =
      ⟨fsErase (fsSet fs (cache_key raw) []) (cache_key raw),
       [Event.openWrite (cache_key raw),
        Event.renderPost (substitute tmpl (prepare_input raw)),
        Event.pasteUpload env.render.postJson.log,
        Event.sendEmbed (failDescription env.paste env.render.postJson.log),
        Event.unlink (cache_key raw)], false⟩ := by
  have hk : cache_key raw = md5hex (utf8Encode (prepare_input raw)) := rfl
  rw [hk] at hmiss
  unfold latex
  simp only [hmiss, generate_invalid env.render _ hpost hstatus, upload_events]
  simp only [← hk, failDescription, List.cons_append, List.nil_append]

/-- The `latex` command on a cache miss when the submit POST fails at HTTP
level: the exception escapes after the file was created, and nothing else
happens. -/
theorem latex_transport_post (tmpl : Template) (env : Ctx) (fs : Fs) (raw : String)
    (hmiss : fsGet fs (cache_key raw) = none)
    (hpost : 400 ≤ env.render.postHttpStatus) :
    latex tmpl env fs raw =
      ⟨fsSet fs (cache_key raw) [],
       [Event.openWrite (cache_key raw),
        Event.renderPost (substitute tmpl (prepare_input raw))], true⟩ := by
  have hk : cache_key raw = md5hex (utf8Encode (prepare_input raw)) := rfl
  rw [hk] at hmiss
  unfold latex
  simp only [hmiss, generate_transport_post env.render _ hpost]
  simp only [← hk]

/-- The `latex` command on a cache miss when the artifact GET fails at HTTP
level: the exception escapes after the file was created and both render
calls were made. -/
theorem latex_transport_get (tmpl : Template) (env : Ctx) (fs : Fs) (raw : String)
    (hmiss : fsGet fs (cache_key raw) = none)
    (hpost : env.render.postHttpStatus < 400)
    (hstatus : env.render.postJson.status = "success")
    (hget : 400 ≤ env.render.getHttpStatus) :
    latex tmpl env fs raw =
      ⟨fsSet fs (cache_key raw) [],
       [Event.openWrite (cache_key raw),
        Event.renderPost (substitute tmpl (prepare_input raw)),
        Event.renderGet (LATEX_API_URL ++ "/" ++ env.render.postJson.filename)],
       true⟩ := by
  have hk : cache_key raw = md5hex (utf8Encode (prepare_input raw)) := rfl
  rw [hk] at hmiss
  unfold latex
  simp only [hmiss, generate_transport_get env.render _ hpost hstatus hget]
  simp only [← hk]

/-- The `latex` command on a cache miss with a fully successful render: the
file is created, both render calls happen, the fetched bytes are stored at
the cache path and sent. -/
theorem latex_ok (tmpl : Template) (env : Ctx) (fs : Fs) (raw : String)
    (hmiss : fsGet fs (cache_key raw) = none)
    (hpost : env.render.postHttpStatus < 400)
    (hstatus : env.render.postJson.status = "success")
    (hget : env.render.getHttpStatus < 400) :
    latex tmpl env fs raw =
      ⟨fsSet (fsSet fs (cache_key raw) []) (cache_key raw) env.render.getBody,
       [Event.openWrite (cache_key raw),
        Event.renderPost (substitute tmpl (prepare_input raw)),
        Event.renderGet (LATEX_API_URL ++ "/" ++ env.render.postJson.filename),
        Event.sendImage (some env.render.getBody)], false⟩ := by
  have hk : cache_key raw = md5hex (utf8Encode (prepare_input raw)) := rfl
  rw [hk] at hmiss
  unfold latex
  simp only [hmiss, generate_ok env.render _ hpost hstatus hget, fsGet_fsSet_self]
  simp only [← hk, List.cons_append, List.nil_append]

/-- The URL the paste upload returns: present exactly when the HTTP call
succeeded and the JSON had a `key`. -/
theorem upload_url (p : PasteEnv) (t : String) :
    (upload_to_pastebin p t).1 =
      (if p.httpStatus < 400 ∧ p.hasKey = true then
        some (PASTEBIN_URL ++ "/" ++ p.key ++ ".txt?noredirect")
      else none) := by
  unfold upload_to_pastebin
  rcases Nat.lt_or_ge p.httpStatus 400 with hlt | hge
  · rw [if_neg (Nat.not_le.mpr hlt)]
    by_cases hk : p.hasKey
    · rw [if_pos hk, if_pos ⟨hlt, hk⟩]
    · rw [if_neg hk, if_neg (fun h => hk h.2)]
  · rw [if_pos hge, if_neg (fun h => Nat.not_le.mpr h.1 hge)]

/-- C1: on a logical render failure (HTTP-successful POST whose JSON status
is not `"success"`), after the invocation terminates no file remains at
`cache/<hash>.png` for the computed key, exactly one failure notice is sent —
carrying a `[View Logs](...)` link when the paste upload succeeded and the
`Couldn't upload logs.` fallback otherwise — and no image is ever sent. -/
theorem claim_C1_logical_failure (tmpl : Template) (env : Ctx) (fs : Fs) (raw : String)
    (hmiss : fsGet fs (cache_key raw) = none)
    (hpost : env.render.postHttpStatus < 400)
    (hstatus : env.render.postJson.status ≠ "success") :
    fsGet (latex tmpl env fs raw).fs (cache_key raw) = none ∧
    (latex tmpl env fs raw).events.countP Event.isEmbedE = 1 ∧
    (latex tmpl env fs raw).events.countP Event.isImageE = 0 ∧
    (if env.paste.httpStatus < 400 ∧ env.paste.hasKey = true then
      Event.sendEmbed
          ("[View Logs](" ++ (PASTEBIN_URL ++ "/" ++ env.paste.key ++ ".txt?noredirect") ++ ")")
        ∈ (latex tmpl env fs raw).events
    else
      Event.sendEmbed "Couldn't upload logs." ∈ (latex tmpl env fs raw).events) := by
  rw [latex_invalid tmpl env fs raw hmiss hpost hstatus]
  refine ⟨fsGet_fsErase_self _ _, ?_, ?_, ?_⟩
  · simp [List.countP_cons, Event.isEmbedE]
  · simp [List.countP_cons, Event.isImageE]
  · split_ifs with hp
    · simp [failDescription, upload_url, hp]
    · simp [failDescription, upload_url, hp]

/-- Witness for C1 at a concrete world: POST 200 with `{status: "error",
log: "boom"}`, empty cache, raw input `"x"`. -/
theorem claim_C1_witness :
    fsGet ([] : Fs) (cache_key "x") = none ∧
    envLogicalFail.render.postHttpStatus < 400 ∧
    envLogicalFail.render.postJson.status ≠ "success" ∧
    (fsGet (latex tmplW envLogicalFail [] "x").fs (cache_key "x") = none ∧
     (latex tmplW envLogicalFail [] "x").events.countP Event.isEmbedE = 1 ∧
     (latex tmplW envLogicalFail [] "x").events.countP Event.isImageE = 0 ∧
     (if envLogicalFail.paste.httpStatus < 400 ∧ envLogicalFail.paste.hasKey = true then
       Event.sendEmbed
           ("[View Logs](" ++ (PASTEBIN_URL ++ "/" ++ envLogicalFail.paste.key ++ ".txt?noredirect") ++ ")")
         ∈ (latex tmplW envLogicalFail [] "x").events
     else
       Event.sendEmbed "Couldn't upload logs." ∈ (latex tmplW envLogicalFail [] "x").events)) :=
  ⟨rfl, by decide, by decide,
   claim_C1_logical_failure tmplW envLogicalFail [] "x" rfl (by decide) (by decide)⟩

/-- Counterexample to C2 as stated: in the failure branch at a concrete
world, the cache-path deletion does NOT happen before the paste upload nor
before the failure notice — both precede the unlink. -/
theorem claim_C2_counterexample :
    eventsBefore Event.isUnlinkE Event.isPasteE (latex tmplW envLogicalFail [] "x").events = false ∧
    eventsBefore Event.isUnlinkE Event.isEmbedE (latex tmplW envLogicalFail [] "x").events = false ∧
    eventsBefore Event.isPasteE Event.isUnlinkE (latex tmplW envLogicalFail [] "x").events = true ∧
    eventsBefore Event.isEmbedE Event.isUnlinkE (latex tmplW envLogicalFail [] "x").events = true := by
  rw [latex_invalid tmplW envLogicalFail [] "x" rfl (by decide) (by decide)]
  decide

/-- C2 (amended): on a logical render failure the orchestrator discards the
partial output file, then attempts the log upload, then sends the failure
notice, and deletes the reserved cache path LAST — the unlink follows both
the paste upload and the failure notice. -/
theorem claim_C2_amended_order (tmpl : Template) (env : Ctx) (fs : Fs) (raw : String)
    (hmiss : fsGet fs (cache_key raw) = none)
    (hpost : env.render.postHttpStatus < 400)
    (hstatus : env.render.postJson.status ≠ "success") :
    (latex tmpl env fs raw).events =
      [Event.openWrite (cache_key raw),
       Event.renderPost (substitute tmpl (prepare_input raw)),
       Event.pasteUpload env.render.postJson.log,
       Event.sendEmbed (failDescription env.paste env.render.postJson.log),
       Event.unlink (cache_key raw)] ∧
    eventsBefore Event.isPasteE Event.isUnlinkE (latex tmpl env fs raw).events = true ∧
    eventsBefore Event.isEmbedE Event.isUnlinkE (latex tmpl env fs raw).events = true := by
  rw [latex_invalid tmpl env fs raw hmiss hpost hstatus]
  refine ⟨rfl, ?_, ?_⟩ <;>
    simp [eventsBefore, List.findIdx?, Event.isPasteE, Event.isEmbedE, Event.isUnlinkE,
      Event.isOpenE]

/-- Witness for the amended C2 at a concrete world. -/
theorem claim_C2_amended_witness :
    fsGet ([] : Fs) (cache_key "x") = none ∧
    envLogicalFail.render.postHttpStatus < 400 ∧
    envLogicalFail.render.postJson.status ≠ "success" ∧
    ((latex tmplW envLogicalFail [] "x").events =
      [Event.openWrite (cache_key "x"),
       Event.renderPost (substitute tmplW (prepare_input "x")),
       Event.pasteUpload envLogicalFail.render.postJson.log,
       Event.sendEmbed (failDescription envLogicalFail.paste envLogicalFail.render.postJson.log),
       Event.unlink (cache_key "x")] ∧
     eventsBefore Event.isPasteE Event.isUnlinkE (latex tmplW envLogicalFail [] "x").events = true ∧
     eventsBefore Event.isEmbedE Event.isUnlinkE (latex tmplW envLogicalFail [] "x").events = true) :=
  ⟨rfl, by decide, by decide,
   claim_C2_amended_order tmplW envLogicalFail [] "x" rfl (by decide) (by decide)⟩

/-- C4: after an invocation completes a successful render for normalized
query `q`, a subsequent invocation whose raw input normalizes to `q` finds
the stored bytes at the key, performs no render network call, and sends
image content byte-identical to what was stored. -/
theorem claim_C4_cache_round_trip (tmpl : Template) (env1 env2 : Ctx) (fs : Fs)
    (raw1 raw2 : String)
    (hnorm : prepare_input raw2 = prepare_input raw1)
    (hmiss : fsGet fs (cache_key raw1) = none)
    (hpost : env1.render.postHttpStatus < 400)
    (hstatus : env1.render.postJson.status = "success")
    (hget : env1.render.getHttpStatus < 400) :
    fsGet (latex tmpl env1 fs raw1).fs (cache_key raw1) = some env1.render.getBody ∧
    latex tmpl env2 (latex tmpl env1 fs raw1).fs raw2 =
      ⟨(latex tmpl env1 fs raw1).fs, [Event.sendImage (some env1.render.getBody)], false⟩ ∧
    (latex tmpl env2 (latex tmpl env1 fs raw1).fs raw2).events.countP Event.isRenderCall = 0 := by
  have hkey : cache_key raw2 = cache_key raw1 := by
    unfold cache_key
    rw [hnorm]
  have h1 := latex_ok tmpl env1 fs raw1 hmiss hpost hstatus hget
  have hstore : fsGet (latex tmpl env1 fs raw1).fs (cache_key raw1) = some env1.render.getBody := by
    rw [h1]
    exact fsGet_fsSet_self _ _ _
  have h2 := latex_hit tmpl env2 (latex tmpl env1 fs raw1).fs raw2 env1.render.getBody
    (by rw [hkey]; exact hstore)
  refine ⟨hstore, h2, ?_⟩
  rw [h2]
  simp [Event.isRenderCall]

/-- Witness for C4: a successful render of `"x"` from an empty cache,
followed by a second invocation for `` "`x`" `` (which normalizes to
`"x"`). -/
theorem claim_C4_witness :
    prepare_input "`x`" = prepare_input "x" ∧
    fsGet ([] : Fs) (cache_key "x") = none ∧
    envRenderOk.render.postHttpStatus < 400 ∧
    envRenderOk.render.postJson.status = "success" ∧
    envRenderOk.render.getHttpStatus < 400 ∧
    (fsGet (latex tmplW envRenderOk [] "x").fs (cache_key "x") = some envRenderOk.render.getBody ∧
     latex tmplW envTransportFail (latex tmplW envRenderOk [] "x").fs "`x`" =
       ⟨(latex tmplW envRenderOk [] "x").fs,
        [Event.sendImage (some envRenderOk.render.getBody)], false⟩ ∧
     (latex tmplW envTransportFail (latex tmplW envRenderOk [] "x").fs "`x`").events.countP
       Event.isRenderCall = 0) :=
  ⟨by decide, rfl, by decide, by decide, by decide,
   claim_C4_cache_round_trip tmplW envRenderOk envTransportFail [] "x" "`x`"
     (by decide) rfl (by decide) (by decide) (by decide)⟩

/-- C5: when the render call fails at transport level (non-success HTTP on
the submit POST, or on the artifact GET after a successful POST), the error
escapes the invocation unhandled, no failure notice and no image is sent, no
paste upload is attempted, no unlink happens, and the reserved cache file is
left behind (empty) at the computed key. -/
theorem claim_C5_transport_propagates (tmpl : Template) (env : Ctx) (fs : Fs) (raw : String)
    (hmiss : fsGet fs (cache_key raw) = none)
    (htrans : 400 ≤ env.render.postHttpStatus ∨
      (env.render.postHttpStatus < 400 ∧ env.render.postJson.status = "success" ∧
        400 ≤ env.render.getHttpStatus)) :
    (latex tmpl env fs raw).raised = true ∧
    (latex tmpl env fs raw).events.countP Event.isEmbedE = 0 ∧
    (latex tmpl env fs raw).events.countP Event.isImageE = 0 ∧
    (latex tmpl env fs raw).events.countP Event.isPasteE = 0 ∧
    (latex tmpl env fs raw).events.countP Event.isUnlinkE = 0 ∧
    fsGet (latex tmpl env fs raw).fs (cache_key raw) = some [] := by
  rcases htrans with hpost | ⟨hpost, hstatus, hget⟩
  · rw [latex_transport_post tmpl env fs raw hmiss hpost]
    refine ⟨rfl, ?_, ?_, ?_, ?_, fsGet_fsSet_self _ _ _⟩ <;>
      simp [List.countP_cons, Event.isEmbedE, Event.isImageE, Event.isPasteE, Event.isUnlinkE]
  · rw [latex_transport_get tmpl env fs raw hmiss hpost hstatus hget]
    refine ⟨rfl, ?_, ?_, ?_, ?_, fsGet_fsSet_self _ _ _⟩ <;>
      simp [List.countP_cons, Event.isEmbedE, Event.isImageE, Event.isPasteE, Event.isUnlinkE]

/-- Witness for C5 at a concrete world: the submit POST returns 500. -/
theorem claim_C5_witness :
    fsGet ([] : Fs) (cache_key "x") = none ∧
    (400 ≤ envTransportFail.render.postHttpStatus ∨
      (envTransportFail.render.postHttpStatus < 400 ∧
        envTransportFail.render.postJson.status = "success" ∧
        400 ≤ envTransportFail.render.getHttpStatus)) ∧
    ((latex tmplW envTransportFail [] "x").raised = true ∧
     (latex tmplW envTransportFail [] "x").events.countP Event.isEmbedE = 0 ∧
     (latex tmplW envTransportFail [] "x").events.countP Event.isImageE = 0 ∧
     (latex tmplW envTransportFail [] "x").events.countP Event.isPasteE = 0 ∧
     (latex tmplW envTransportFail [] "x").events.countP Event.isUnlinkE = 0 ∧
     fsGet (latex tmplW envTransportFail [] "x").fs (cache_key "x") = some []) :=
  ⟨rfl, by decide,
   claim_C5_transport_propagates tmplW envTransportFail [] "x" rfl (by decide)⟩

/-- C8 (poison cache): the cache file is created (opened for writing) before
the render network calls begin, so a transport-level render failure leaves an
empty file at `cache/<hash>.png`; every subsequent invocation normalizing to
the same query then takes the cache-hit branch, makes no network call, and
sends that empty file as the image. -/
theorem claim_C8_poison_cache (tmpl : Template) (env1 env2 : Ctx) (fs : Fs)
    (raw1 raw2 : String)
    (hnorm : prepare_input raw2 = prepare_input raw1)
    (hmiss : fsGet fs (cache_key raw1) = none)
    (htrans : 400 ≤ env1.render.postHttpStatus ∨
      (env1.render.postHttpStatus < 400 ∧ env1.render.postJson.status = "success" ∧
        400 ≤ env1.render.getHttpStatus)) :
    eventsBefore Event.isOpenE Event.isRenderCall (latex tmpl env1 fs raw1).events = true ∧
    (latex tmpl env1 fs raw1).raised = true ∧
    fsGet (latex tmpl env1 fs raw1).fs (cache_key raw1) = some [] ∧
    latex tmpl env2 (latex tmpl env1 fs raw1).fs raw2 =
      ⟨(latex tmpl env1 fs raw1).fs, [Event.sendImage (some [])], false⟩ ∧
    (latex tmpl env2 (latex tmpl env1 fs raw1).fs raw2).events.countP Event.isRenderCall = 0 := by
  have hkey : cache_key raw2 = cache_key raw1 := by
    unfold cache_key
    rw [hnorm]
  have hstore : fsGet (latex tmpl env1 fs raw1).fs (cache_key raw1) = some [] := by
    rcases htrans with hpost | ⟨hpost, hstatus, hget⟩
    · rw [latex_transport_post tmpl env1 fs raw1 hmiss hpost]
      exact fsGet_fsSet_self _ _ _
    · rw [latex_transport_get tmpl env1 fs raw1 hmiss hpost hstatus hget]
      exact fsGet_fsSet_self _ _ _
  have h2 := latex_hit tmpl env2 (latex tmpl env1 fs raw1).fs raw2 []
    (by rw [hkey]; exact hstore)
  refine ⟨?_, ?_, hstore, h2, ?_⟩
  · rcases htrans with hpost | ⟨hpost, hstatus, hget⟩
    · rw [latex_transport_post tmpl env1 fs raw1 hmiss hpost]
      simp [eventsBefore, List.findIdx?, Event.isOpenE, Event.isRenderCall]
    · rw [latex_transport_get tmpl env1 fs raw1 hmiss hpost hstatus hget]
      simp [eventsBefore, List.findIdx?, Event.isOpenE, Event.isRenderCall]
  · rcases htrans with hpost | ⟨hpost, hstatus, hget⟩
    · rw [latex_transport_post tmpl env1 fs raw1 hmiss hpost]
    · rw [latex_transport_get tmpl env1 fs raw1 hmiss hpost hstatus hget]
  · rw [h2]
    simp [Event.isRenderCall]

/-- Witness for C8: a POST-level transport failure for `"x"` from an empty
cache, then a second invocation for `` "`x`" ``. -/
theorem claim_C8_witness :
    prepare_input "`x`" = prepare_input "x" ∧
    fsGet ([] : Fs) (cache_key "x") = none ∧
    (400 ≤ envTransportFail.render.postHttpStatus ∨
      (envTransportFail.render.postHttpStatus < 400 ∧
        envTransportFail.render.postJson.status = "success" ∧
        400 ≤ envTransportFail.render.getHttpStatus)) ∧
    (eventsBefore Event.isOpenE Event.isRenderCall
        (latex tmplW envTransportFail [] "x").events = true ∧
     (latex tmplW envTransportFail [] "x").raised = true ∧
     fsGet (latex tmplW envTransportFail [] "x").fs (cache_key "x") = some [] ∧
     latex tmplW envRenderOk (latex tmplW envTransportFail [] "x").fs "`x`" =
       ⟨(latex tmplW envTransportFail [] "x").fs, [Event.sendImage (some [])], false⟩ ∧
     (latex tmplW envRenderOk (latex tmplW envTransportFail [] "x").fs "`x`").events.countP
       Event.isRenderCall = 0) :=
  ⟨by decide, rfl, by decide,
   claim_C8_poison_cache tmplW envTransportFail envRenderOk [] "x" "`x`"
     (by decide) rfl (by decide)⟩

/-- C10: the cache key is the MD5 hex digest of the UTF-8 bytes of the
normalized query alone, computed before the query is wrapped in the document
template; the final cache state, the escape behaviour, and the set of cache
paths an invocation touches are therefore identical under any two templates,
and every touched path is `cache/<cache_key raw>.png`. -/
theorem claim_C10_key_ignores_template (tmpl tmpl' : Template) (env : Ctx) (fs : Fs)
    (raw : String) :
    cache_key raw = md5hex (utf8Encode (prepare_input raw)) ∧
    (latex tmpl env fs raw).fs = (latex tmpl' env fs raw).fs ∧
    (latex tmpl env fs raw).raised = (latex tmpl' env fs raw).raised ∧
    keyEvents (latex tmpl env fs raw).events = keyEvents (latex tmpl' env fs raw).events ∧
    ((keyEvents (latex tmpl env fs raw).events).all fun k => k == cache_key raw) = true := by
  refine ⟨rfl, ?_⟩
  cases hfs : fsGet fs (cache_key raw) with
  | some b =>
    rw [latex_hit tmpl env fs raw b hfs, latex_hit tmpl' env fs raw b hfs]
    simp [keyEvents]
  | none =>
    rcases Nat.lt_or_ge env.render.postHttpStatus 400 with hpost | hpost
    · by_cases hstatus : env.render.postJson.status = "success"
      · rcases Nat.lt_or_ge env.render.getHttpStatus 400 with hget | hget
        · rw [latex_ok tmpl env fs raw hfs hpost hstatus hget,
            latex_ok tmpl' env fs raw hfs hpost hstatus hget]
          simp [keyEvents]
        · rw [latex_transport_get tmpl env fs raw hfs hpost hstatus hget,
            latex_transport_get tmpl' env fs raw hfs hpost hstatus hget]
          simp [keyEvents]
      · rw [latex_invalid tmpl env fs raw hfs hpost hstatus,
          latex_invalid tmpl' env fs raw hfs hpost hstatus]
        simp [keyEvents]
    · rw [latex_transport_post tmpl env fs raw hfs hpost,
        latex_transport_post tmpl' env fs raw hfs hpost]
      simp [keyEvents]

/-- A non-whitespace character starts no blank line. -/
theorem blankLine_none (b : Char) (l : List Char) (hbw : isWs b = false) :
    blankLine (b :: l) = none := by
  have h1 : ¬ b = '\n' := by
    intro h
    subst h
    simp [isWs] at hbw
  have h2 : ¬ (b = ' ' || b = '\t') = true := by
    intro h
    rcases Bool.or_eq_true_iff.mp h with h' | h' <;>
      simp_all [isWs, decide_eq_true_iff]
  unfold blankLine
  rw [if_neg h1, if_neg h2]

/-- When no blank line starts here, the blank-line consumer is the
identity, whatever the fuel. -/
theorem dropBlankLinesF_none (n : Nat) (s : List Char) (h : blankLine s = none) :
    dropBlankLinesF n s = s := by
  cases n with
  | zero => rfl
  | succ m =>
    unfold dropBlankLinesF
    rw [h]

/-- Unfolding step for `tryClose` on a cons cell. -/
theorem tryClose_cons (delim : List Char) (c : Char) (rest : List Char) :
    tryClose delim (c :: rest) = (isPre delim (c :: rest) || (isWs c && tryClose delim rest)) :=
  rfl

/-- Inside a backtick-free stretch that does not end in whitespace, the
single-backtick closing delimiter is not yet reachable. -/
theorem tryClose_not_yet (s t : List Char) (hne : s ≠ [])
    (hnb : ∀ c ∈ s, c ≠ '`')
    (hlast : ∀ c, s.getLast? = some c → isWs c = false) :
    tryClose ['`'] (s ++ '`' :: t) = false := by
  induction s with
  | nil => exact absurd rfl hne
  | cons c cs ih =>
    have hc : ('`' == c) = false :=
      beq_eq_false_iff_ne.mpr (Ne.symm (hnb c (List.mem_cons_self c cs)))
    cases cs with
    | nil =>
      have hcw : isWs c = false := hlast c rfl
      simp [tryClose, isPre, hc, hcw]
    | cons c2 cs2 =>
      have ih' := ih (by simp)
        (fun x hx => hnb x (List.mem_cons_of_mem c hx))
        (by
          intro x hx
          exact hlast x (by rw [List.getLast?_cons_cons]; exact hx))
      rw [List.cons_append, tryClose_cons]
      have hpre : isPre ['`'] (c :: (c2 :: cs2 ++ '`' :: t)) = false := by
        simp [isPre, hc]
      rw [hpre, ih']
      simp

/-- Unfolding step for `tryCode` on a cons cell. -/
theorem tryCode_cons (delim acc : List Char) (c : Char) (rest : List Char) :
    tryCode delim acc (c :: rest) =
      (if tryClose delim (c :: rest) then some acc.reverse
       else tryCode delim (c :: acc) rest) :=
  rfl

/-- The lazy code group swallows a whole backtick-free, non-whitespace-ending
stretch and stops exactly at the single-backtick closing delimiter, whatever
follows it. -/
theorem tryCode_through (s : List Char) (t acc : List Char) (hne : s ≠ [])
    (hnb : ∀ c ∈ s, c ≠ '`')
    (hlast : ∀ c, s.getLast? = some c → isWs c = false) :
    tryCode ['`'] acc (s ++ '`' :: t) = some (acc.reverse ++ s) := by
  induction s generalizing acc with
  | nil => exact absurd rfl hne
  | cons c cs ih =>
    have hclose := tryClose_not_yet (c :: cs) t hne hnb hlast
    rw [List.cons_append] at hclose
    rw [List.cons_append, tryCode_cons, if_neg (by simp [hclose])]
    cases cs with
    | nil =>
      have hstop : tryClose ['`'] ('`' :: t) = true := by
        simp [tryClose, isPre]
      rw [List.nil_append, tryCode_cons, if_pos (by simp [hstop])]
      simp
    | cons c2 cs2 =>
      have ih' := ih (c :: acc) (by simp)
        (fun x hx => hnb x (List.mem_cons_of_mem c hx))
        (fun x hx => hlast x (by rw [List.getLast?_cons_cons]; exact hx))
      rw [ih']
      simp

/-- C9: the fence pattern need not consume the whole input — for every
single-backtick fence around a nonempty, backtick-free body that neither
starts nor ends in whitespace, and EVERY trailing continuation `t` after the
closing delimiter, `_prepare_input` returns exactly the fenced body: the
trailing text is silently discarded, not preserved, and does not make the
input come back unchanged. -/
theorem claim_C9_trailing_text_discarded (body t : List Char)
    (hne : body ≠ [])
    (hnb : ∀ c ∈ body, c ≠ '`')
    (hhead : ∀ c, body.head? = some c → isWs c = false)
    (hlast : ∀ c, body.getLast? = some c → isWs c = false) :
    fenceMatch (('`' :: body) ++ '`' :: t) = some body ∧
    prepare_core (('`' :: body) ++ '`' :: t) = body := by
  obtain ⟨b, bs, rfl⟩ : ∃ b bs, body = b :: bs := by
    cases body with
    | nil => exact absurd rfl hne
    | cons b bs => exact ⟨b, bs, rfl⟩
  have hb : ('`' == b) = false :=
    beq_eq_false_iff_ne.mpr (Ne.symm (hnb b (List.mem_cons_self b bs)))
  have hbw : isWs b = false := hhead b rfl
  have h3 : tryDelim true ['`', '`', '`'] ('`' :: ((b :: bs) ++ '`' :: t)) = none := by
    simp [tryDelim, isPre, hb, List.cons_append]
  have h2 : tryDelim false ['`', '`'] ('`' :: ((b :: bs) ++ '`' :: t)) = none := by
    simp [tryDelim, isPre, hb, List.cons_append]
  have h1 : tryDelim false ['`'] ('`' :: ((b :: bs) ++ '`' :: t)) = some (b :: bs) := by
    have hthrough := tryCode_through (b :: bs) t [] hne hnb hlast
    simp only [List.reverse_nil, List.nil_append] at hthrough
    have hcond : isPre ['`'] ('`' :: ((b :: bs) ++ '`' :: t)) = true := by
      simp [isPre]
    have hblank : dropBlankLines ((b :: bs) ++ '`' :: t) = (b :: bs) ++ '`' :: t := by
      unfold dropBlankLines
      refine dropBlankLinesF_none _ _ ?_
      rw [List.cons_append]
      exact blankLine_none b _ hbw
    unfold tryDelim
    rw [if_pos hcond, if_neg Bool.false_ne_true]
    have hdrop : List.drop (['`'] : List Char).length ('`' :: (b :: bs ++ '`' :: t)) =
        b :: bs ++ '`' :: t := rfl
    rw [hdrop, hblank, hthrough]
  have hfm : fenceMatch ('`' :: ((b :: bs) ++ '`' :: t)) = some (b :: bs) := by
    simp only [fenceMatch, h3, h2, h1]
  rw [List.cons_append]
  refine ⟨hfm, ?_⟩
  unfold prepare_core
  rw [hfm]
  rfl

/-- Witness for C9 at a concrete input: `` `code` and more `` normalizes to
`code`, discarding the trailing text. -/
theorem claim_C9_witness :
    ("code".data ≠ [] ∧ (∀ c ∈ "code".data, c ≠ '`') ∧
     (∀ c, "code".data.head? = some c → isWs c = false) ∧
     (∀ c, "code".data.getLast? = some c → isWs c = false)) ∧
    (fenceMatch (('`' :: "code".data) ++ '`' :: " and more".data) = some "code".data ∧
     prepare_core (('`' :: "code".data) ++ '`' :: " and more".data) = "code".data) :=
  ⟨⟨by decide, by decide,
    fun c hc => by
      rw [show "code".data.head? = some 'c' from rfl] at hc
      cases hc
      rfl,
    fun c hc => by
      rw [show "code".data.getLast? = some 'e' from rfl] at hc
      cases hc
      rfl⟩,
   claim_C9_trailing_text_discarded "code".data " and more".data (by decide) (by decide)
     (fun c hc => by
       rw [show "code".data.head? = some 'c' from rfl] at hc
       cases hc
       rfl)
     (fun c hc => by
       rw [show "code".data.getLast? = some 'e' from rfl] at hc
       cases hc
       rfl)⟩
